import Mathlib

/-!
Shallow embedding of `src/smartDac.py` (SmartDAC control interface).

Modelling conventions:
* Python floats are modelled as exact rationals (`ℚ`); every numeric
  literal of the source (e.g. `25.6 * 10^-6`) is carried over as the
  exact rational it denotes.
* Python 3 `round` is round-half-to-even (`pyRound` below).
* Python `x >> n` on arbitrary ints is flooring division (`Int.fdiv`),
  `x & 0xFF` is `Int.emod x 256`, and `x << n` on a nonnegative int is
  multiplication by `2 ^ n`.
* Every I2C transaction issued through the `smbus` transport and every
  `time.sleep` is recorded as an `Event`; an operation's meaning is the
  list of events it emits plus its result.
* An operation that prints an error message and returns `None`, or that
  raises (e.g. subscripting the `None` returned by a failed table lookup),
  is modelled with `Option`/`Except.error`; the events already emitted
  before the failure point are kept in the trace.
-/

namespace SmartDac

/-- Register addresses (source lines 36-46). -/
def regStatus : Nat := 0xD0

def regConfig : Nat := 0xD1

def regMedConfig : Nat := 0xD2

def regTrigger : Nat := 0xD3

def regDAC : Nat := 0x21

def regDAC_MarginH : Nat := 0x25

def regDAC_MarginL : Nat := 0x26

/-- Command words (source lines 49-59). -/
def cmdReset : Nat := 0x000A

def cmdPowerOn : Nat := 0x0000

def cmdPowerOff : Nat := 0x0010

def cmdPowerOff_10k : Nat := 0x0018

def cmdLock : Nat := 0x2000

def cmdUnlock : Nat := 0x5000

def cmdNVMProg : Nat := 0x0010

def cmdNVMReload : Nat := 0x0020

def cmdErase : Nat := 0x0000

def cmdFactory : Nat := 0x0200

/-- Medical alarm priority codes (source lines 62-64). -/
def medAlarmHP : Nat := 0x4

def medAlarmMP : Nat := 0x2

def medAlarmLP : Nat := 0x1

/-- Medical timing rows: raw code plus the three per-priority duration
labels, in the source order `[code, low, medium, high]` (lines 66-79). -/
def medDeadTime_0 : Nat × String × String × String := (0x00, "16 sec", "2.60 sec", "2.55 sec")

def medDeadTime_1 : Nat × String × String × String := (0x01, "16 sec", "3.06 sec", "2.96 sec")

def medDeadTime_2 : Nat × String × String × String := (0x02, "16 sec", "3.52 sec", "3.38 sec")

def medDeadTime_3 : Nat × String × String × String := (0x03, "16 sec", "4.00 sec", "3.80 sec")

def medPulseOff_0 : Nat × String × String × String := (0x00, "40 msec", "40 msec", "15 msec")

def medPulseOff_1 : Nat × String × String × String := (0x01, "60 msec", "60 msec", "36 msec")

def medPulseOff_2 : Nat × String × String × String := (0x02, "80 msec", "80 msec", "58 msec")

def medPulseOff_3 : Nat × String × String × String := (0x03, "100 msec", "100 msec", "80 msec")

def medPulseOn_0 : Nat × String × String × String := (0x00, "80 msec", "130 msec", "130 msec")

def medPulseOn_1 : Nat × String × String × String := (0x01, "103 msec", "153 msec", "153 msec")

def medPulseOn_2 : Nat × String × String × String := (0x02, "126 msec", "176 msec", "176 msec")

def medPulseOn_3 : Nat × String × String × String := (0x03, "150 msec", "200 msec", "200 msec")

/-- Function generator mode codes (source lines 82-86). -/
def cmdSawL : Nat := 0x01

def cmdSawH : Nat := 0x02

def cmdSquare : Nat := 0x03

def cmdTriangle : Nat := 0x00

def cmdStartFunc : Nat := 0x01

/-- Code step rows `[code, lsb_count]` (source lines 89-96). -/
def step_1 : Nat × Nat := (0x00, 1)

def step_2 : Nat × Nat := (0x01, 2)

def step_3 : Nat × Nat := (0x02, 3)

def step_4 : Nat × Nat := (0x03, 4)

def step_6 : Nat × Nat := (0x04, 6)

def step_8 : Nat × Nat := (0x05, 8)

def step_16 : Nat × Nat := (0x06, 16)

def step_32 : Nat × Nat := (0x07, 32)

/-- A slew-rate table entry. In the source, `slew_0` … `slew_14` are
two-element lists `[code, seconds_per_lsb]` while `slew_15` is the bare
int `0x0F` (no rate); the two shapes are the two constructors here. -/
inductive SlewEntry
  | pair (code : Nat) (rate : ℚ)
  | sentinel (code : Nat)
  deriving DecidableEq

/-- Slew rate rows (source lines 99-115), rationals taken exactly:
`25.6 * 10^-6 = 256/10^7`, `204.8 * 10^-6 = 2048/10^7`,
`1.6384 * 10^-3 = 16384/10^7`, `1.6384 * 10^-6 = 16384/10^10`,
and the multipliers `1.25 = 5/4`, `1.5 = 3/2`, `1.75 = 7/4`.
Rows 9-11 use the `10^-6` scale exactly as written in the source. -/
def slew_0 : SlewEntry := .pair 0x00 (256 / 10 ^ 7)

def slew_1 : SlewEntry := .pair 0x01 (256 / 10 ^ 7 * (5 / 4))

def slew_2 : SlewEntry := .pair 0x02 (256 / 10 ^ 7 * (3 / 2))

def slew_3 : SlewEntry := .pair 0x03 (256 / 10 ^ 7 * (7 / 4))

def slew_4 : SlewEntry := .pair 0x04 (2048 / 10 ^ 7)

def slew_5 : SlewEntry := .pair 0x05 (2048 / 10 ^ 7 * (5 / 4))

def slew_6 : SlewEntry := .pair 0x06 (2048 / 10 ^ 7 * (3 / 2))

def slew_7 : SlewEntry := .pair 0x07 (2048 / 10 ^ 7 * (7 / 4))

def slew_8 : SlewEntry := .pair 0x08 (16384 / 10 ^ 7)

def slew_9 : SlewEntry := .pair 0x09 (16384 / 10 ^ 10 * (5 / 4))

def slew_10 : SlewEntry := .pair 0x0A (16384 / 10 ^ 10 * (3 / 2))

def slew_11 : SlewEntry := .pair 0x0B (16384 / 10 ^ 10 * (7 / 4))

def slew_12 : SlewEntry := .pair 0x0C (12 / 10 ^ 6)

def slew_13 : SlewEntry := .pair 0x0D (8 / 10 ^ 6)

def slew_14 : SlewEntry := .pair 0x0E (4 / 10 ^ 6)

def slew_15 : SlewEntry := .sentinel 0x0F

/-- Python 3 `round`: round half to even. -/
def pyRound (x : ℚ) : ℤ :=
  if x - ⌊x⌋ < 1 / 2 then ⌊x⌋
  else if 1 / 2 < x - ⌊x⌋ then ⌊x⌋ + 1
  else if ⌊x⌋ % 2 = 0 then ⌊x⌋ else ⌊x⌋ + 1

/-- `dac.calcDACCode` (lines 233-239): `round(val * 1023.0 / 5) << 2`;
the left shift on the resulting int is multiplication by 4. -/
def calcDACCode (val : ℚ) : ℤ :=
  pyRound (val * 1023 / 5) * 4

/-- `dac.nibble` (lines 226-231): `[val >> 8, val & 0xFF]` with Python's
flooring shift and nonnegative masking on arbitrary ints. -/
def nibble (val : ℤ) : List ℤ :=
  [Int.fdiv val 256, Int.emod val 256]

/-- Voltage display of the `v` command handler (lines 416-418):
`((val >> 2) / 1023) * 5`. -/
def code_to_voltage (rv : ℤ) : ℚ :=
  ((Int.fdiv rv 4 : ℤ) : ℚ) / 1023 * 5

/-- One observable effect of an operation: an I2C block write of `bytes`
to register `reg`, or a sleep of `ms` milliseconds. -/
inductive Event
  | write (reg : Nat) (bytes : List ℤ)
  | sleep (ms : Nat)
  deriving DecidableEq

/-- `dac.slew_rate` (lines 241-259): an if/elif ladder over the index.
The source's final `elif args == "no"` branch compares the global argparse
namespace (not the argument) with a string and can never be taken, so it
is omitted; the trailing `else` prints an error and returns `None`,
modelled as `none`. -/
def slew_rate (arg : Nat) : Option SlewEntry :=
  if arg = 0 then some slew_0
  else if arg = 1 then some slew_1
  else if arg = 2 then some slew_2
  else if arg = 3 then some slew_3
  else if arg = 4 then some slew_4
  else if arg = 5 then some slew_5
  else if arg = 6 then some slew_6
  else if arg = 7 then some slew_7
  else if arg = 8 then some slew_8
  else if arg = 9 then some slew_9
  else if arg = 10 then some slew_10
  else if arg = 11 then some slew_11
  else if arg = 12 then some slew_12
  else if arg = 13 then some slew_13
  else if arg = 14 then some slew_14
  else if arg = 15 then some slew_15
  else none

/-- `dac.code_step` (lines 261-270); the `else` prints and returns `None`. -/
def code_step (arg : Nat) : Option (Nat × Nat) :=
  if arg = 0 then some step_1
  else if arg = 1 then some step_2
  else if arg = 2 then some step_3
  else if arg = 3 then some step_4
  else if arg = 4 then some step_6
  else if arg = 5 then some step_8
  else if arg = 6 then some step_16
  else if arg = 7 then some step_32
  else none

/-- `dac.calcDeadtime` (lines 272-276); falling off the ladder returns `None`. -/
def calcDeadtime (arg : Nat) : Option (Nat × String × String × String) :=
  if arg = 0 then some medDeadTime_0
  else if arg = 1 then some medDeadTime_1
  else if arg = 2 then some medDeadTime_2
  else if arg = 3 then some medDeadTime_3
  else none

/-- `dac.calcPulse_off_time` (lines 278-282). -/
def calcPulse_off_time (arg : Nat) : Option (Nat × String × String × String) :=
  if arg = 0 then some medPulseOff_0
  else if arg = 1 then some medPulseOff_1
  else if arg = 2 then some medPulseOff_2
  else if arg = 3 then some medPulseOff_3
  else none

/-- `dac.calcPulse_on_time` (lines 284-288). -/
def calcPulse_on_time (arg : Nat) : Option (Nat × String × String × String) :=
  if arg = 0 then some medPulseOn_0
  else if arg = 1 then some medPulseOn_1
  else if arg = 2 then some medPulseOn_2
  else if arg = 3 then some medPulseOn_3
  else none

/-- `dac.setVoltage` (lines 290-293): one write of the split DAC code to
the DAC-value register; returns the code. -/
def setVoltage (voltage : ℚ) : List Event × ℤ :=
  ([Event.write regDAC (nibble (calcDACCode voltage))], calcDACCode voltage)

/-- `dac.lock` (lines 307-310): erase to trigger, then lock to config. -/
def lock : List Event :=
  [Event.write regTrigger (nibble (cmdErase : ℤ)),
   Event.write regConfig (nibble (cmdLock : ℤ))]

/-- `dac.unLock` (lines 312-314): unlock to trigger, then erase to config. -/
def unLock : List Event :=
  [Event.write regTrigger (nibble (cmdUnlock : ℤ)),
   Event.write regConfig (nibble (cmdErase : ℤ))]

/-- `dac.power` (lines 319-328); an unrecognized mode writes nothing. -/
def power (val : String) : List Event :=
  if val = "on" then [Event.write regConfig (nibble (cmdPowerOn : ℤ))]
  else if val = "off" then [Event.write regConfig (nibble (cmdPowerOff : ℤ))]
  else if val = "10k" then [Event.write regConfig (nibble (cmdPowerOff_10k : ℤ))]
  else []

/-- `dac.NVM` (lines 334-338); an unrecognized mode writes nothing. -/
def NVM (mode : String) : List Event :=
  if mode = "prog" then [Event.write regTrigger (nibble (cmdNVMProg : ℤ))]
  else if mode = "reload" then [Event.write regTrigger (nibble (cmdNVMReload : ℤ))]
  else []

/-- `dac.funcGenOff` (lines 404-405): erase to trigger. -/
def funcGenOff : List Event :=
  [Event.write regTrigger (nibble (cmdErase : ℤ))]

/-- The report printed by a successful `dac.funcGen` branch: mode, the
two margin voltages, the slew code, the step LSB count (absent for
square, which does not print it), and the computed frequency. -/
structure FuncReport where
  mode : String
  marginH : ℚ
  marginL : ℚ
  slewCode : Nat
  stepLsb : Option Nat
  freq : ℚ
  deriving DecidableEq

/-- `dac.funcGen` (lines 340-384). The first two events (clear trigger,
`time.sleep(0.5)` = 500 ms) are emitted before the table lookups. Each
mode branch subscripts the looked-up slew entry (`slew[0]`, `slew[1]`)
and, except for square, the step row; if the lookup returned the bare
sentinel or `None`, that subscript raises `TypeError` before any further
write, modelled by `Except.error` with the trace cut at that point.
Each branch then computes `freq = 1.0 / denominator`; when the
denominator is zero (in triangle/sawtooth modes this happens whenever
`((margH - margL) >> 2) + 1 = 0`, i.e. the margin codes are inverted by
exactly one LSB), Python raises `ZeroDivisionError` at that line, again
before any further write, so the guard returns `Except.error` with only
the clear-trigger write and the sleep in the trace. An unrecognized mode
falls through the ladder and prints nothing. -/
def funcGen (mode : String) (marginH marginL : ℚ) (slewIdx stepIdx : Nat) :
    List Event × Except String FuncReport :=
  let pre : List Event := funcGenOff ++ [Event.sleep 500]
  let margH := calcDACCode marginH
  let margL := calcDACCode marginL
  let slew := slew_rate slewIdx
  let step := code_step stepIdx
  if mode = "square" then
    match slew with
    | some (.pair c r) =>
        let cmd : Nat := (cmdSquare <<< 14) ||| (c <<< 5)
        if 2 * r = 0 then (pre, Except.error "ZeroDivisionError: float division by zero")
        else
          (pre ++ [Event.write regConfig (nibble (cmd : ℤ)),
                   Event.write regDAC_MarginH (nibble margH),
                   Event.write regDAC_MarginL (nibble margL),
                   Event.write regTrigger (nibble ((cmdStartFunc <<< 8 : Nat) : ℤ))],
           Except.ok ⟨mode, marginH, marginL, c, none, 1 / (2 * r)⟩)
    | _ => (pre, Except.error "TypeError: slew entry is not subscriptable")
  else if mode = "triangle" then
    match slew, step with
    | some (.pair c r), some (sc, lsb) =>
        let cmd : Nat := (cmdTriangle <<< 14) ||| (c <<< 5) ||| (sc <<< 9)
        let denom : ℚ := 2 * r * ((Int.fdiv (margH - margL) 4 + 1 : ℤ) : ℚ) / (lsb : ℚ)
        if denom = 0 then (pre, Except.error "ZeroDivisionError: float division by zero")
        else
          (pre ++ [Event.write regConfig (nibble (cmd : ℤ)),
                   Event.write regDAC_MarginH (nibble margH),
                   Event.write regDAC_MarginL (nibble margL),
                   Event.write regTrigger (nibble ((cmdStartFunc <<< 8 : Nat) : ℤ))],
           Except.ok ⟨mode, marginH, marginL, c, some lsb, 1 / denom⟩)
    | _, _ => (pre, Except.error "TypeError: table entry is not subscriptable")
  else if mode = "sawH" then
    match slew, step with
    | some (.pair c r), some (sc, lsb) =>
        let cmd : Nat := (cmdSawH <<< 14) ||| (c <<< 5) ||| (sc <<< 9)
        let denom : ℚ := r * ((Int.fdiv (margH - margL) 4 + 1 : ℤ) : ℚ) / (lsb : ℚ)
        if denom = 0 then (pre, Except.error "ZeroDivisionError: float division by zero")
        else
          (pre ++ [Event.write regConfig (nibble (cmd : ℤ)),
                   Event.write regDAC_MarginH (nibble margH),
                   Event.write regDAC_MarginL (nibble margL),
                   Event.write regTrigger (nibble ((cmdStartFunc <<< 8 : Nat) : ℤ))],
           Except.ok ⟨mode, marginH, marginL, c, some lsb, 1 / denom⟩)
    | _, _ => (pre, Except.error "TypeError: table entry is not subscriptable")
  else if mode = "sawL" then
    match slew, step with
    | some (.pair c r), some (sc, lsb) =>
        let cmd : Nat := (cmdSawL <<< 14) ||| (c <<< 5) ||| (sc <<< 9)
        let denom : ℚ := r * ((Int.fdiv (margH - margL) 4 + 1 : ℤ) : ℚ) / (lsb : ℚ)
        if denom = 0 then (pre, Except.error "ZeroDivisionError: float division by zero")
        else
          (pre ++ [Event.write regConfig (nibble (cmd : ℤ)),
                   Event.write regDAC_MarginH (nibble margH),
                   Event.write regDAC_MarginL (nibble margL),
                   Event.write regTrigger (nibble ((cmdStartFunc <<< 8 : Nat) : ℤ))],
           Except.ok ⟨mode, marginH, marginL, c, some lsb, 1 / denom⟩)
    | _, _ => (pre, Except.error "TypeError: table entry is not subscriptable")
  else (pre, Except.error "unrecognized mode: nothing written, nothing reported")

/-- The report printed by a successful `dac.medGen` branch: the priority
name and the three duration labels picked from the priority's column. -/
structure MedReport where
  priority : String
  deadLabel : String
  offLabel : String
  onLabel : String
  deriving DecidableEq

/-- `dac.medGen` (lines 387-402). Each branch packs
`(priority << 8) | (dead_time[0] << 4) | (offTime[0] << 2) | (onTime[0] << 0)`
and writes it to the medical-config register. A timing index outside 0-3
makes the corresponding lookup return `None` and the `[0]` subscript in
the branch raise, modelled as `Except.error`; an unrecognized mode falls
through the ladder silently. -/
def medGen (mode : String) (deadtime onIdx offIdx : Nat) :
    List Event × Except String MedReport :=
  match calcDeadtime deadtime, calcPulse_on_time onIdx, calcPulse_off_time offIdx with
  | some dt, some onT, some offT =>
    if mode = "l" then
      let cmd : Nat := (medAlarmLP <<< 8) ||| (dt.1 <<< 4) ||| (offT.1 <<< 2) ||| (onT.1 <<< 0)
      ([Event.write regMedConfig (nibble (cmd : ℤ))],
       Except.ok ⟨"Low", dt.2.1, offT.2.1, onT.2.1⟩)
    else if mode = "m" then
      let cmd : Nat := (medAlarmMP <<< 8) ||| (dt.1 <<< 4) ||| (offT.1 <<< 2) ||| (onT.1 <<< 0)
      ([Event.write regMedConfig (nibble (cmd : ℤ))],
       Except.ok ⟨"Medium", dt.2.2.1, offT.2.2.1, onT.2.2.1⟩)
    else if mode = "h" then
      let cmd : Nat := (medAlarmHP <<< 8) ||| (dt.1 <<< 4) ||| (offT.1 <<< 2) ||| (onT.1 <<< 0)
      ([Event.write regMedConfig (nibble (cmd : ℤ))],
       Except.ok ⟨"High", dt.2.2.2, offT.2.2.2, onT.2.2.2⟩)
    else ([], Except.error "unrecognized mode: nothing written, nothing reported")
  | _, _, _ => ([], Except.error "TypeError: timing entry is not subscriptable")

end SmartDac

namespace SmartDac

/-- Every slew index below 15 resolves to a code/rate pair with a
strictly positive rate. -/
theorem slew_rate_pair_of_lt (s : Nat) (hs : s < 15) :
    ∃ c r, slew_rate s = some (.pair c r) ∧ 0 < r := by
  interval_cases s <;> exact ⟨_, _, rfl, by norm_num⟩

/-- Every slew index above 15 falls through the ladder to `none`. -/
theorem slew_rate_none_of_gt (s : Nat) (hs : 15 < s) : slew_rate s = none := by
  simp only [slew_rate]
  repeat rw [if_neg (by omega)]

/-- Every step index below 8 resolves to a code/count pair with a
strictly positive LSB count. -/
theorem code_step_some_of_lt (t : Nat) (ht : t < 8) :
    ∃ c n, code_step t = some (c, n) ∧ 0 < n := by
  interval_cases t <;> exact ⟨_, _, rfl, by norm_num⟩

/-- Every step index above 7 falls through the ladder to `none`. -/
theorem code_step_none_of_gt (t : Nat) (ht : 7 < t) : code_step t = none := by
  simp only [code_step]
  repeat rw [if_neg (by omega)]

/-- Every dead-time row's raw code equals its index. -/
theorem calcDeadtime_code_eq (d : Nat) (hd : d < 4) :
    ∃ l, calcDeadtime d = some (d, l) := by
  interval_cases d <;> exact ⟨_, rfl⟩

/-- Every pulse-on row's raw code equals its index. -/
theorem calcPulse_on_code_eq (o : Nat) (ho : o < 4) :
    ∃ l, calcPulse_on_time o = some (o, l) := by
  interval_cases o <;> exact ⟨_, rfl⟩

/-- Every pulse-off row's raw code equals its index. -/
theorem calcPulse_off_code_eq (f : Nat) (hf : f < 4) :
    ∃ l, calcPulse_off_time f = some (f, l) := by
  interval_cases f <;> exact ⟨_, rfl⟩

/-- Evaluation rule for `pyRound` when the fractional part is below a half. -/
theorem pyRound_eq_of_lt_half (x : ℚ) (n : ℤ) (h1 : (n : ℚ) ≤ x) (h2 : x < n + 1 / 2) :
    pyRound x = n := by
  have hf : ⌊x⌋ = n := Int.floor_eq_iff.mpr ⟨h1, by linarith⟩
  unfold pyRound
  rw [hf, if_pos (by linarith)]

/-- Evaluation rule for `pyRound` when the fractional part exceeds a half. -/
theorem pyRound_eq_of_half_lt (x : ℚ) (n : ℤ) (h1 : (n : ℚ) + 1 / 2 < x) (h2 : x < n + 1) :
    pyRound x = n + 1 := by
  have hf : ⌊x⌋ = n := Int.floor_eq_iff.mpr ⟨by linarith, by linarith⟩
  unfold pyRound
  rw [hf, if_neg (by linarith), if_pos (by linarith)]

/-- `calcDACCode 3.3 = round(675.18) << 2 = 675 << 2 = 2700`. -/
theorem calcDACCode_three_point_three : calcDACCode (33 / 10) = 2700 := by
  unfold calcDACCode
  rw [show (33 / 10 * 1023 / 5 : ℚ) = 33759 / 50 by norm_num,
    pyRound_eq_of_lt_half (33759 / 50) 675 (by norm_num) (by norm_num)]
  norm_num

/-- `calcDACCode 0 = 0`. -/
theorem calcDACCode_zero : calcDACCode 0 = 0 := by
  unfold calcDACCode
  rw [show (0 * 1023 / 5 : ℚ) = 0 by norm_num,
    pyRound_eq_of_lt_half 0 0 (by norm_num) (by norm_num)]
  norm_num

/-- `calcDACCode 5 = 1023 << 2 = 4092`. -/
theorem calcDACCode_five : calcDACCode 5 = 4092 := by
  unfold calcDACCode
  rw [show (5 * 1023 / 5 : ℚ) = 1023 by norm_num,
    pyRound_eq_of_lt_half 1023 1023 (by norm_num) (by norm_num)]
  norm_num

/-- C1 (counterexample): `set_voltage(3.3)` does not write the bytes
`(0x0A, 0x90)` claimed by the spec: `round(3.3*1023/5) = round(675.18)`
is 675, not 676. -/
theorem setVoltage_3_3_bytes_ne_claimed :
    (setVoltage (33 / 10)).1 ≠ [Event.write regDAC [0x0A, 0x90]] := by
  simp only [setVoltage, calcDACCode_three_point_three]
  decide

/-- C1 (amended): `set_voltage(3.3)` computes the DacCode
`round(3.3*1023/5) << 2 = 675 << 2 = 2700 (0x0A8C)` and writes exactly
the two bytes `(0x0A, 0x8C)` to the DAC-value register. -/
theorem setVoltage_3_3 :
    (setVoltage (33 / 10)).2 = 2700 ∧
    (setVoltage (33 / 10)).1 = [Event.write regDAC [0x0A, 0x8C]] := by
  constructor
  · simp only [setVoltage, calcDACCode_three_point_three]
  · simp only [setVoltage, calcDACCode_three_point_three]
    decide

/-- C8: `lock()` issues exactly the two writes erase-to-trigger then
lock-to-config; `unlock()` issues exactly unlock-to-trigger then
erase-to-config (payloads shown as their concrete big-endian bytes). -/
theorem lock_unlock_two_writes :
    lock = [Event.write regTrigger [0x00, 0x00], Event.write regConfig [0x20, 0x00]] ∧
    unLock = [Event.write regTrigger [0x50, 0x00], Event.write regConfig [0x00, 0x00]] := by
  decide

/-- C10: the power-off (high-Z) command word and the NVM-program command
word are both `0x0010`, so `power("off")` and `nvm("prog")` transmit the
identical byte pair `(0x00, 0x10)`, distinguished only by the target
register (config `0xD1` vs trigger `0xD3`). -/
theorem powerOff_nvmProg_identical_payload :
    cmdPowerOff = cmdNVMProg ∧
    power "off" = [Event.write regConfig [0x00, 0x10]] ∧
    NVM "prog" = [Event.write regTrigger [0x00, 0x10]] ∧
    regConfig ≠ regTrigger := by
  refine ⟨rfl, by decide, by decide, by decide⟩

/-- C6: `slew_rate` fails (returns `none`, modelling the printed
invalid-argument message) for every index above 15 and `code_step` for
every index above 7; inside their ranges they return the documented
constants, in particular `slew_rate 0 = (0x00, 25.6e-6)` (exactly
`256/10^7` seconds per LSB) and `code_step 4 = (0x04, 6)`. -/
theorem slewRate_codeStep_ranges :
    (∀ i : Nat, 15 < i → slew_rate i = none) ∧
    (∀ i : Nat, 7 < i → code_step i = none) ∧
    slew_rate 0 = some (.pair 0x00 (256 / 10 ^ 7)) ∧
    code_step 4 = some (0x04, 6) :=
  ⟨fun i hi => slew_rate_none_of_gt i hi,
   fun i hi => code_step_none_of_gt i hi, rfl, rfl⟩

/-- C6 (witness): both out-of-range failures at the first bad index. -/
theorem slewRate_codeStep_ranges_witness :
    slew_rate 16 = none ∧ code_step 8 = none :=
  ⟨slewRate_codeStep_ranges.1 16 (by decide), slewRate_codeStep_ranges.2.1 8 (by decide)⟩

/-- C2: for every priority and all timing indices in 0..3,
`start_medical_alarm` writes the single packed word
`(priority_code << 8) | (deadtime_code << 4) | (off_code << 2) | (on_code << 0)`
to the medical-config register (each table code equals its index), and in
particular priority low, deadtime 2, off 1, on 3 packs `0x127`, sent as
bytes `(0x01, 0x27)`. -/
theorem medGen_cmd_pack (mode : String) (p d o f : Nat)
    (hp : (mode = "l" ∧ p = medAlarmLP) ∨ (mode = "m" ∧ p = medAlarmMP) ∨
          (mode = "h" ∧ p = medAlarmHP))
    (hd : d < 4) (ho : o < 4) (hf : f < 4) :
    (medGen mode d o f).1 =
      [Event.write regMedConfig
        (nibble (((p <<< 8) ||| (d <<< 4) ||| (f <<< 2) ||| (o <<< 0) : Nat) : ℤ))] ∧
    (medGen "l" 2 3 1).1 = [Event.write regMedConfig [0x01, 0x27]] := by
  constructor
  · obtain ⟨ld, hdd⟩ := calcDeadtime_code_eq d hd
    obtain ⟨lo, hoo⟩ := calcPulse_on_code_eq o ho
    obtain ⟨lf, hff⟩ := calcPulse_off_code_eq f hf
    rcases hp with ⟨hm, hpc⟩ | ⟨hm, hpc⟩ | ⟨hm, hpc⟩ <;> subst hm <;> subst hpc <;>
      simp [medGen, hdd, hoo, hff]
  · decide

/-- C2 (witness): the packing equation applied at priority low,
deadtime 2, on 3, off 1. -/
theorem medGen_cmd_pack_witness :
    (medGen "l" 2 3 1).1 =
      [Event.write regMedConfig
        (nibble (((medAlarmLP <<< 8) ||| (2 <<< 4) ||| (1 <<< 2) ||| (3 <<< 0) : Nat) : ℤ))] :=
  (medGen_cmd_pack "l" medAlarmLP 2 3 1 (Or.inl ⟨rfl, rfl⟩) (by decide) (by decide)
    (by decide)).1

/-- Slew index 0 resolves to code `0x00` with `25.6e-6` seconds per LSB. -/
theorem slew_rate_zero : slew_rate 0 = some (.pair 0x00 (256 / 10 ^ 7)) := rfl

/-- `calcDACCode (1/200) = round(0.005*1023/5) << 2 = 1 << 2 = 4`. -/
theorem calcDACCode_one_over_200 : calcDACCode (1 / 200) = 4 := by
  unfold calcDACCode
  rw [show (1 / 200 * 1023 / 5 : ℚ) = 1023 / 1000 by norm_num,
    pyRound_eq_of_lt_half (1023 / 1000) 1 (by norm_num) (by norm_num)]
  norm_num

/-- Branch shape of `funcGen` in square mode once the slew lookup is known. -/
theorem funcGen_square_eq (mh ml : ℚ) (s t : Nat) (c : Nat) (r : ℚ)
    (hsr : slew_rate s = some (.pair c r)) :
    funcGen "square" mh ml s t =
      if 2 * r = 0 then
        ([Event.write regTrigger (nibble (cmdErase : ℤ)), Event.sleep 500],
         Except.error "ZeroDivisionError: float division by zero")
      else
        ([Event.write regTrigger (nibble (cmdErase : ℤ)), Event.sleep 500,
          Event.write regConfig (nibble (((cmdSquare <<< 14) ||| (c <<< 5) : Nat) : ℤ)),
          Event.write regDAC_MarginH (nibble (calcDACCode mh)),
          Event.write regDAC_MarginL (nibble (calcDACCode ml)),
          Event.write regTrigger (nibble ((cmdStartFunc <<< 8 : Nat) : ℤ))],
         Except.ok ⟨"square", mh, ml, c, none, 1 / (2 * r)⟩) := by
  simp [funcGen, hsr, funcGenOff]

/-- Branch shape of `funcGen` in triangle mode once both lookups are known. -/
theorem funcGen_triangle_eq (mh ml : ℚ) (s t : Nat) (c sc : Nat) (r : ℚ) (lsb : Nat)
    (hsr : slew_rate s = some (.pair c r)) (hct : code_step t = some (sc, lsb)) :
    funcGen "triangle" mh ml s t =
      if 2 * r * ((Int.fdiv (calcDACCode mh - calcDACCode ml) 4 + 1 : ℤ) : ℚ) / (lsb : ℚ) = 0
      then
        ([Event.write regTrigger (nibble (cmdErase : ℤ)), Event.sleep 500],
         Except.error "ZeroDivisionError: float division by zero")
      else
        ([Event.write regTrigger (nibble (cmdErase : ℤ)), Event.sleep 500,
          Event.write regConfig
            (nibble (((cmdTriangle <<< 14) ||| (c <<< 5) ||| (sc <<< 9) : Nat) : ℤ)),
          Event.write regDAC_MarginH (nibble (calcDACCode mh)),
          Event.write regDAC_MarginL (nibble (calcDACCode ml)),
          Event.write regTrigger (nibble ((cmdStartFunc <<< 8 : Nat) : ℤ))],
         Except.ok ⟨"triangle", mh, ml, c, some lsb,
           1 / (2 * r * ((Int.fdiv (calcDACCode mh - calcDACCode ml) 4 + 1 : ℤ) : ℚ) /
             (lsb : ℚ))⟩) := by
  simp [funcGen, hsr, hct, funcGenOff]

/-- Branch shape of `funcGen` in rising-sawtooth mode once both lookups
are known. -/
theorem funcGen_sawH_eq (mh ml : ℚ) (s t : Nat) (c sc : Nat) (r : ℚ) (lsb : Nat)
    (hsr : slew_rate s = some (.pair c r)) (hct : code_step t = some (sc, lsb)) :
    funcGen "sawH" mh ml s t =
      if r * ((Int.fdiv (calcDACCode mh - calcDACCode ml) 4 + 1 : ℤ) : ℚ) / (lsb : ℚ) = 0
      then
        ([Event.write regTrigger (nibble (cmdErase : ℤ)), Event.sleep 500],
         Except.error "ZeroDivisionError: float division by zero")
      else
        ([Event.write regTrigger (nibble (cmdErase : ℤ)), Event.sleep 500,
          Event.write regConfig
            (nibble (((cmdSawH <<< 14) ||| (c <<< 5) ||| (sc <<< 9) : Nat) : ℤ)),
          Event.write regDAC_MarginH (nibble (calcDACCode mh)),
          Event.write regDAC_MarginL (nibble (calcDACCode ml)),
          Event.write regTrigger (nibble ((cmdStartFunc <<< 8 : Nat) : ℤ))],
         Except.ok ⟨"sawH", mh, ml, c, some lsb,
           1 / (r * ((Int.fdiv (calcDACCode mh - calcDACCode ml) 4 + 1 : ℤ) : ℚ) /
             (lsb : ℚ))⟩) := by
  simp [funcGen, hsr, hct, funcGenOff]

/-- Branch shape of `funcGen` in falling-sawtooth mode once both lookups
are known. -/
theorem funcGen_sawL_eq (mh ml : ℚ) (s t : Nat) (c sc : Nat) (r : ℚ) (lsb : Nat)
    (hsr : slew_rate s = some (.pair c r)) (hct : code_step t = some (sc, lsb)) :
    funcGen "sawL" mh ml s t =
      if r * ((Int.fdiv (calcDACCode mh - calcDACCode ml) 4 + 1 : ℤ) : ℚ) / (lsb : ℚ) = 0
      then
        ([Event.write regTrigger (nibble (cmdErase : ℤ)), Event.sleep 500],
         Except.error "ZeroDivisionError: float division by zero")
      else
        ([Event.write regTrigger (nibble (cmdErase : ℤ)), Event.sleep 500,
          Event.write regConfig
            (nibble (((cmdSawL <<< 14) ||| (c <<< 5) ||| (sc <<< 9) : Nat) : ℤ)),
          Event.write regDAC_MarginH (nibble (calcDACCode mh)),
          Event.write regDAC_MarginL (nibble (calcDACCode ml)),
          Event.write regTrigger (nibble ((cmdStartFunc <<< 8 : Nat) : ℤ))],
         Except.ok ⟨"sawL", mh, ml, c, some lsb,
           1 / (r * ((Int.fdiv (calcDACCode mh - calcDACCode ml) 4 + 1 : ℤ) : ℚ) /
             (lsb : ℚ))⟩) := by
  simp [funcGen, hsr, hct, funcGenOff]

/-- C3 (counterexample): at triangle mode with margin-high 0 V and
margin-low 0.005 V (both valid inputs), the margin codes are 0 and 4, so
`((margH - margL) >> 2) + 1 = 0` and the frequency computation divides
by zero: the trace is only the clear-trigger write and the sleep, not
the claimed six-event sequence. -/
theorem funcGen_zero_denominator_trace :
    (funcGen "triangle" 0 (1 / 200) 0 0).1 =
      [Event.write regTrigger (nibble (cmdErase : ℤ)), Event.sleep 500] ∧
    ¬ ∃ cfg : List ℤ,
        (funcGen "triangle" 0 (1 / 200) 0 0).1 =
          [Event.write regTrigger (nibble (cmdErase : ℤ)), Event.sleep 500,
           Event.write regConfig cfg,
           Event.write regDAC_MarginH (nibble (calcDACCode 0)),
           Event.write regDAC_MarginL (nibble (calcDACCode (1 / 200))),
           Event.write regTrigger (nibble ((cmdStartFunc <<< 8 : Nat) : ℤ))] := by
  have htr : (funcGen "triangle" 0 (1 / 200) 0 0).1 =
      [Event.write regTrigger (nibble (cmdErase : ℤ)), Event.sleep 500] := by
    rw [funcGen_triangle_eq 0 (1 / 200) 0 0 0x00 0x00 (256 / 10 ^ 7) 1 slew_rate_zero rfl,
      if_pos (by
        rw [calcDACCode_zero, calcDACCode_one_over_200,
          show (Int.fdiv (0 - 4) 4 + 1 : ℤ) = 0 from by decide]
        norm_num)]
  refine ⟨htr, ?_⟩
  rintro ⟨cfg, h⟩
  rw [htr] at h
  simp at h

/-- C3 (amended): for every waveform mode and in-range indices,
`start_waveform` issues the six-event sequence clear-trigger write,
500 ms sleep, packed config command, margin-high DacCode, margin-low
DacCode, and the start command shifted into the high byte to the
trigger register — except that in triangle/sawtooth modes, when the
margin DacCodes satisfy `((margH - margL) >> 2) + 1 = 0` (margin-high
code exactly one LSB below margin-low code), the frequency computation
divides by zero and the invocation fails after only the clear-trigger
write and the delay, issuing no config, margin, or trigger-start
write. -/
theorem funcGen_write_order :
    (∀ (mode : String) (mh ml : ℚ) (s t : Nat),
        (mode = "square" ∨ mode = "triangle" ∨ mode = "sawH" ∨ mode = "sawL") →
        s < 15 → t < 8 →
        (mode = "square" ∨ Int.fdiv (calcDACCode mh - calcDACCode ml) 4 + 1 ≠ 0) →
        ∃ cfg : List ℤ,
          (funcGen mode mh ml s t).1 =
            [Event.write regTrigger (nibble (cmdErase : ℤ)), Event.sleep 500,
             Event.write regConfig cfg,
             Event.write regDAC_MarginH (nibble (calcDACCode mh)),
             Event.write regDAC_MarginL (nibble (calcDACCode ml)),
             Event.write regTrigger (nibble ((cmdStartFunc <<< 8 : Nat) : ℤ))]) ∧
    (∀ (mode : String) (mh ml : ℚ) (s t : Nat),
        (mode = "triangle" ∨ mode = "sawH" ∨ mode = "sawL") →
        s < 15 → t < 8 →
        Int.fdiv (calcDACCode mh - calcDACCode ml) 4 + 1 = 0 →
        (funcGen mode mh ml s t).1 =
          [Event.write regTrigger (nibble (cmdErase : ℤ)), Event.sleep 500] ∧
        ∃ e, (funcGen mode mh ml s t).2 = Except.error e) := by
  constructor
  · intro mode mh ml s t hm hs ht hz
    obtain ⟨c, r, hsr, hr⟩ := slew_rate_pair_of_lt s hs
    obtain ⟨sc, n, hct, hn⟩ := code_step_some_of_lt t ht
    have hrQ : (2 : ℚ) * r ≠ 0 := by positivity
    have hnQ : ((n : ℕ) : ℚ) ≠ 0 := Nat.cast_ne_zero.mpr hn.ne'
    rcases hm with hm | hm | hm | hm <;> subst hm
    · rw [funcGen_square_eq mh ml s t c r hsr, if_neg hrQ]
      exact ⟨_, rfl⟩
    all_goals
      rcases hz with hsq | hM
      · exact absurd hsq (by decide)
      have hMQ : ((Int.fdiv (calcDACCode mh - calcDACCode ml) 4 + 1 : ℤ) : ℚ) ≠ 0 :=
        Int.cast_ne_zero.mpr hM
    · rw [funcGen_triangle_eq mh ml s t c sc r n hsr hct,
        if_neg (div_ne_zero (mul_ne_zero hrQ hMQ) hnQ)]
      exact ⟨_, rfl⟩
    · rw [funcGen_sawH_eq mh ml s t c sc r n hsr hct,
        if_neg (div_ne_zero (mul_ne_zero hr.ne' hMQ) hnQ)]
      exact ⟨_, rfl⟩
    · rw [funcGen_sawL_eq mh ml s t c sc r n hsr hct,
        if_neg (div_ne_zero (mul_ne_zero hr.ne' hMQ) hnQ)]
      exact ⟨_, rfl⟩
  · intro mode mh ml s t hm hs ht hM0
    obtain ⟨c, r, hsr, hr⟩ := slew_rate_pair_of_lt s hs
    obtain ⟨sc, n, hct, hn⟩ := code_step_some_of_lt t ht
    have hD0 : ((Int.fdiv (calcDACCode mh - calcDACCode ml) 4 + 1 : ℤ) : ℚ) = 0 := by
      rw [hM0]; norm_num
    rcases hm with hm | hm | hm <;> subst hm
    · rw [funcGen_triangle_eq mh ml s t c sc r n hsr hct, if_pos (by rw [hD0]; ring)]
      exact ⟨rfl, _, rfl⟩
    · rw [funcGen_sawH_eq mh ml s t c sc r n hsr hct, if_pos (by rw [hD0]; ring)]
      exact ⟨rfl, _, rfl⟩
    · rw [funcGen_sawL_eq mh ml s t c sc r n hsr hct, if_pos (by rw [hD0]; ring)]
      exact ⟨rfl, _, rfl⟩

/-- C3 (witness): the six-event order at square mode, margins 5 V / 0 V,
slew 0, step 0, and the divide-by-zero failure path at triangle mode,
margins 0 V / 0.005 V. -/
theorem funcGen_write_order_witness :
    (∃ cfg : List ℤ,
      (funcGen "square" 5 0 0 0).1 =
        [Event.write regTrigger (nibble (cmdErase : ℤ)), Event.sleep 500,
         Event.write regConfig cfg,
         Event.write regDAC_MarginH (nibble (calcDACCode 5)),
         Event.write regDAC_MarginL (nibble (calcDACCode 0)),
         Event.write regTrigger (nibble ((cmdStartFunc <<< 8 : Nat) : ℤ))]) ∧
    ((funcGen "triangle" 0 (1 / 200) 0 1).1 =
        [Event.write regTrigger (nibble (cmdErase : ℤ)), Event.sleep 500] ∧
      ∃ e, (funcGen "triangle" 0 (1 / 200) 0 1).2 = Except.error e) :=
  ⟨funcGen_write_order.1 "square" 5 0 0 0 (Or.inl rfl) (by decide) (by decide) (Or.inl rfl),
   funcGen_write_order.2 "triangle" 0 (1 / 200) 0 1 (Or.inl rfl) (by decide) (by decide)
     (by rw [calcDACCode_zero, calcDACCode_one_over_200]; decide)⟩

/-- C5 (counterexample): with the out-of-range slew index 16, a register
write (the clear-trigger write) is still issued by `start_waveform`,
refuting "no register write happens for that invocation". -/
theorem funcGen_oob_still_writes :
    Event.write regTrigger (nibble (cmdErase : ℤ)) ∈ (funcGen "square" 5 0 16 0).1 := by
  simp [funcGen, slew_rate_none_of_gt 16 (by norm_num), funcGenOff]

/-- C5 (amended): an out-of-range index is not rejected before transport:
the clear-trigger write and the 500 ms settle delay are always issued
first; then, for slew index > 15 in any mode, or step index > 7 in a
non-square mode, the invocation fails with no config, margin, or
trigger-start write issued. In square mode an out-of-range step index is
ignored entirely and the waveform starts normally. -/
theorem funcGen_invalid_index :
    (∀ (mode : String) (mh ml : ℚ) (s t : Nat),
        (mode = "square" ∨ mode = "triangle" ∨ mode = "sawH" ∨ mode = "sawL") →
        (15 < s ∨ (7 < t ∧ mode ≠ "square")) →
        (funcGen mode mh ml s t).1 =
          [Event.write regTrigger (nibble (cmdErase : ℤ)), Event.sleep 500] ∧
        ∃ e, (funcGen mode mh ml s t).2 = Except.error e) ∧
    (∀ (mh ml : ℚ) (t : Nat), 7 < t →
        ∃ rep, (funcGen "square" mh ml 0 t).2 = Except.ok rep) := by
  constructor
  · intro mode mh ml s t hm hinv
    rcases hinv with hs | ⟨ht, hmode⟩
    · have hsr := slew_rate_none_of_gt s hs
      rcases hct : code_step t with _ | p <;>
        rcases hm with hm | hm | hm | hm <;> subst hm <;>
          simp [funcGen, hsr, hct, funcGenOff]
    · have hct := code_step_none_of_gt t ht
      rcases hm with hm | hm | hm | hm <;> subst hm
      · exact absurd rfl hmode
      all_goals
        rcases hsr : slew_rate s with _ | se
        · simp [funcGen, hsr, hct, funcGenOff]
        · rcases se with ⟨c, r⟩ | c <;> simp [funcGen, hsr, hct, funcGenOff]
  · intro mh ml t ht
    exact ⟨⟨"square", mh, ml, 0x00, none, 1 / (2 * (256 / 10 ^ 7))⟩,
      by rw [funcGen_square_eq mh ml 0 t 0x00 (256 / 10 ^ 7) slew_rate_zero,
        if_neg (by norm_num)]⟩

/-- C5 (witness): the amended behaviour at slew 16 in triangle mode, and
the square-mode step-index bypass at step 8. -/
theorem funcGen_invalid_index_witness :
    ((funcGen "triangle" 5 0 16 0).1 =
        [Event.write regTrigger (nibble (cmdErase : ℤ)), Event.sleep 500] ∧
      ∃ e, (funcGen "triangle" 5 0 16 0).2 = Except.error e) ∧
    (∃ rep, (funcGen "square" 5 0 0 8).2 = Except.ok rep) :=
  ⟨funcGen_invalid_index.1 "triangle" 5 0 16 0 (Or.inr (Or.inl rfl)) (Or.inl (by norm_num)),
   funcGen_invalid_index.2 5 0 8 (by norm_num)⟩

/-- C7: slew index 15 is accepted by `slew_rate` as the bare sentinel
code `0x0F` with no numeric rate; a `start_waveform` invocation with
slew index 15 emits only the clear-trigger write and the settle delay
and then fails, so no frequency is computed or reported and no
generator-start command is issued (the generator is left off). -/
theorem slew15_no_rate_no_freq :
    slew_rate 15 = some (.sentinel 0x0F) ∧
    ∀ (mode : String) (mh ml : ℚ) (t : Nat),
      (mode = "square" ∨ mode = "triangle" ∨ mode = "sawH" ∨ mode = "sawL") →
      (funcGen mode mh ml 15 t).1 =
        [Event.write regTrigger (nibble (cmdErase : ℤ)), Event.sleep 500] ∧
      ∃ e, (funcGen mode mh ml 15 t).2 = Except.error e := by
  refine ⟨rfl, ?_⟩
  intro mode mh ml t hm
  have hsr : slew_rate 15 = some (.sentinel 0x0F) := rfl
  rcases hct : code_step t with _ | p <;>
    rcases hm with hm | hm | hm | hm <;> subst hm <;>
      simp [funcGen, hsr, hct, funcGenOff]

/-- C7 (witness): the slew-15 behaviour at square mode, margins 5 V / 0 V,
step 0. -/
theorem slew15_no_rate_no_freq_witness :
    (funcGen "square" 5 0 15 0).1 =
      [Event.write regTrigger (nibble (cmdErase : ℤ)), Event.sleep 500] ∧
    ∃ e, (funcGen "square" 5 0 15 0).2 = Except.error e :=
  slew15_no_rate_no_freq.2 "square" 5 0 0 (Or.inl rfl)

/-- C4: the frequency reported by `start_waveform` is `1/(2*r)` for
square mode, `1/(2*r*(((margH - margL) >> 2) + 1)/lsb)` for triangle
mode, and `1/(r*(((margH - margL) >> 2) + 1)/lsb)` for both sawtooth
modes, where `r` is the selected seconds-per-LSB, `lsb` the selected
step count, and `margH`/`margL` the raw left-shifted DacCodes; in
particular square mode with slew index 0 (`r = 25.6e-6`) reports
`1/(2*25.6e-6) = 78125/4 = 19531.25` Hz. -/
theorem funcGen_frequency :
    (∀ (mh ml : ℚ) (s t : Nat) (c : Nat) (r : ℚ),
        slew_rate s = some (.pair c r) →
        ∀ rep, (funcGen "square" mh ml s t).2 = Except.ok rep →
          rep.freq = 1 / (2 * r)) ∧
    (∀ (mh ml : ℚ) (s t c sc : Nat) (r : ℚ) (lsb : Nat),
        slew_rate s = some (.pair c r) → code_step t = some (sc, lsb) →
        ∀ rep, (funcGen "triangle" mh ml s t).2 = Except.ok rep →
          rep.freq =
            1 / (2 * r * ((Int.fdiv (calcDACCode mh - calcDACCode ml) 4 + 1 : ℤ) : ℚ) /
              (lsb : ℚ))) ∧
    (∀ (mh ml : ℚ) (s t c sc : Nat) (r : ℚ) (lsb : Nat),
        slew_rate s = some (.pair c r) → code_step t = some (sc, lsb) →
        ∀ rep, (funcGen "sawH" mh ml s t).2 = Except.ok rep →
          rep.freq =
            1 / (r * ((Int.fdiv (calcDACCode mh - calcDACCode ml) 4 + 1 : ℤ) : ℚ) /
              (lsb : ℚ))) ∧
    (∀ (mh ml : ℚ) (s t c sc : Nat) (r : ℚ) (lsb : Nat),
        slew_rate s = some (.pair c r) → code_step t = some (sc, lsb) →
        ∀ rep, (funcGen "sawL" mh ml s t).2 = Except.ok rep →
          rep.freq =
            1 / (r * ((Int.fdiv (calcDACCode mh - calcDACCode ml) 4 + 1 : ℤ) : ℚ) /
              (lsb : ℚ))) ∧
    (∀ rep, (funcGen "square" 5 0 0 0).2 = Except.ok rep → rep.freq = 78125 / 4) := by
  refine ⟨?_, ?_, ?_, ?_, ?_⟩
  · intro mh ml s t c r hsr rep hrep
    rw [funcGen_square_eq mh ml s t c r hsr] at hrep
    by_cases hD : (2 : ℚ) * r = 0
    · rw [if_pos hD] at hrep
      simp at hrep
    · rw [if_neg hD] at hrep
      rw [← Except.ok.inj hrep]
  · intro mh ml s t c sc r lsb hsr hct rep hrep
    rw [funcGen_triangle_eq mh ml s t c sc r lsb hsr hct] at hrep
    by_cases hD : 2 * r * ((Int.fdiv (calcDACCode mh - calcDACCode ml) 4 + 1 : ℤ) : ℚ) /
        (lsb : ℚ) = 0
    · rw [if_pos hD] at hrep
      simp at hrep
    · rw [if_neg hD] at hrep
      rw [← Except.ok.inj hrep]
  · intro mh ml s t c sc r lsb hsr hct rep hrep
    rw [funcGen_sawH_eq mh ml s t c sc r lsb hsr hct] at hrep
    by_cases hD : r * ((Int.fdiv (calcDACCode mh - calcDACCode ml) 4 + 1 : ℤ) : ℚ) /
        (lsb : ℚ) = 0
    · rw [if_pos hD] at hrep
      simp at hrep
    · rw [if_neg hD] at hrep
      rw [← Except.ok.inj hrep]
  · intro mh ml s t c sc r lsb hsr hct rep hrep
    rw [funcGen_sawL_eq mh ml s t c sc r lsb hsr hct] at hrep
    by_cases hD : r * ((Int.fdiv (calcDACCode mh - calcDACCode ml) 4 + 1 : ℤ) : ℚ) /
        (lsb : ℚ) = 0
    · rw [if_pos hD] at hrep
      simp at hrep
    · rw [if_neg hD] at hrep
      rw [← Except.ok.inj hrep]
  · intro rep hrep
    rw [funcGen_square_eq 5 0 0 0 0x00 (256 / 10 ^ 7) slew_rate_zero,
      if_neg (by norm_num)] at hrep
    rw [← Except.ok.inj hrep]
    simp only [FuncReport.freq]
    norm_num

/-- C4 (witness): the square-mode frequency theorem applied to the
concrete run with slew index 0, where the reported frequency is
`19531.25` Hz. -/
theorem funcGen_frequency_witness :
    FuncReport.freq ⟨"square", 5, 0, 0x00, none, 1 / (2 * (256 / 10 ^ 7))⟩ = 78125 / 4 :=
  funcGen_frequency.2.2.2.2 ⟨"square", 5, 0, 0x00, none, 1 / (2 * (256 / 10 ^ 7))⟩
    (by rw [funcGen_square_eq 5 0 0 0 0x00 (256 / 10 ^ 7) slew_rate_zero,
      if_neg (by norm_num)])

/-- Python `round` never moves a value by more than half an LSB. -/
theorem pyRound_abs_le (x : ℚ) : |((pyRound x : ℤ) : ℚ) - x| ≤ 1 / 2 := by
  have hf1 : (⌊x⌋ : ℚ) ≤ x := Int.floor_le x
  have hf2 : x < ⌊x⌋ + 1 := Int.lt_floor_add_one x
  unfold pyRound
  split_ifs with h1 h2 h3 <;> rw [abs_le] <;> constructor <;> push_cast <;> linarith

/-- C9: for every voltage in [0, 5], converting to a DacCode and back
moves the value by at most one LSB-equivalent (`5/1023 ≈ 0.0049` V), and
the endpoints are exact: `voltage_to_code 0 = 0` and
`voltage_to_code 5 = 1023 << 2 = 4092`. -/
theorem voltage_roundtrip :
    (∀ v : ℚ, 0 ≤ v → v ≤ 5 → |code_to_voltage (calcDACCode v) - v| ≤ 5 / 1023) ∧
    calcDACCode 0 = 0 ∧ calcDACCode 5 = 4092 := by
  refine ⟨?_, calcDACCode_zero, calcDACCode_five⟩
  intro v h0 h5
  have h := pyRound_abs_le (v * 1023 / 5)
  unfold code_to_voltage calcDACCode
  rw [Int.mul_fdiv_cancel _ (by norm_num)]
  have he : ((pyRound (v * 1023 / 5) : ℤ) : ℚ) / 1023 * 5 - v =
      5 / 1023 * (((pyRound (v * 1023 / 5) : ℤ) : ℚ) - v * 1023 / 5) := by ring
  rw [he, abs_mul, abs_of_nonneg (by norm_num : (0 : ℚ) ≤ 5 / 1023)]
  calc 5 / 1023 * |((pyRound (v * 1023 / 5) : ℤ) : ℚ) - v * 1023 / 5|
      ≤ 5 / 1023 * (1 / 2) := by
        exact mul_le_mul_of_nonneg_left h (by norm_num)
    _ ≤ 5 / 1023 := by norm_num

/-- C9 (witness): the round-trip bound at 3 V. -/
theorem voltage_roundtrip_witness :
    (0 : ℚ) ≤ 3 ∧ (3 : ℚ) ≤ 5 ∧ |code_to_voltage (calcDACCode 3) - 3| ≤ 5 / 1023 :=
  ⟨by norm_num, by norm_num, voltage_roundtrip.1 3 (by norm_num) (by norm_num)⟩

end SmartDac
